import Mathlib

/-!  Verification of the hourly performance generators of the ads-data repository
(`services/performance.py`, `services/performance_ext.py`,
`services/performance_utils.py`).

The Python generators draw from a `random.Random` stream.  We model the stream
as a function `ℕ → ℚ` from draw index to a unit-interval sample together with
the index of the next draw; `uniform a b` maps the sample affinely into
`[a, b]` and `randint a b` into `{a, …, b}`, exactly the documented contracts
of `random.uniform` / `random.randint`.  Quantifying over all unit streams
covers every seed.  Float arithmetic is modelled by exact rationals;
`int(·)` is truncation toward zero and `round(·)` is Python's round-half-to-even.
The temporal factor engine, which uses `exp`/`sin`/`cos`, is modelled over ℝ;
the orchestrators take the per-hour factor as an opaque function parameter,
mirroring how the Python code passes the computed float into the generator. -/

namespace AdsData

/-- Python `int(x)`: truncation toward zero. -/
def pyInt (q : ℚ) : ℤ := if 0 ≤ q then ⌊q⌋ else -⌊-q⌋

/-- Python `round(x)`: round half to even. -/
def pyRound (q : ℚ) : ℤ :=
  let f := ⌊q⌋
  if q - f < 1/2 then f
  else if (1:ℚ)/2 < q - f then f + 1
  else if f % 2 = 0 then f else f + 1

/-- Python `a // b` on integers: floor division. -/
def pyFloorDiv (a b : ℤ) : ℤ := Int.fdiv a b

/-- A pseudo-random source: a stream of unit-interval samples plus the index of
the next draw.  `random.Random(seed)` corresponds to index 0 of the stream the
seed determines. -/
structure Rng where
  stream : ℕ → ℚ
  idx : ℕ

/-- Consume one raw unit sample. -/
def Rng.next (r : Rng) : ℚ × Rng := (r.stream r.idx, ⟨r.stream, r.idx + 1⟩)

/-- `rng.uniform(a, b)`: affine image of a unit sample in `[a, b]`. -/
def Rng.uniform (r : Rng) (a b : ℚ) : ℚ × Rng :=
  let (u, r') := r.next
  (a + (b - a) * u, r')

/-- `rng.randint(a, b)`: uniform integer in `[a, b]` (endpoint clamped so a
unit sample of exactly 1 still lands inside the range). -/
def Rng.randint (r : Rng) (a b : ℤ) : ℤ × Rng :=
  let (u, r') := r.next
  (a + min (b - a) ⌊u * ((b - a + 1 : ℤ) : ℚ)⌋, r')

/-- A stream is a unit stream when every sample lies in `[0, 1]`; this is the
semantics of every seed. -/
def UnitStream (σ : ℕ → ℚ) : Prop := ∀ k, 0 ≤ σ k ∧ σ k ≤ 1

/-- Hour timestamps are absolute UTC hour numbers; the calendar origin is
chosen so that day 0 is a Monday (`datetime.weekday()`: Mon = 0). -/
def hourOfDay (t : ℕ) : ℕ := t % 24

/-- Day of week of an absolute hour number, Mon = 0 .. Sun = 6. -/
def dayOfWeek (t : ℕ) : ℕ := (t / 24) % 7

/-- Audience composition snapshot, mirroring the nested dicts returned by
`_audience_mix` in `services/performance.py`. -/
structure AudienceMix where
  device : List (String × ℚ)
  age : List (String × ℚ)
  gender : List (String × ℚ)
  life_stage : List (String × ℚ)
  interest : List (String × ℚ)
deriving DecidableEq

/-- The `_normalize` helper of `_audience_mix`: divide by the sum (or 1 when
the sum is zero, Python's `sum(...) or 1.0`). -/
def normalize_shares (d : List (String × ℚ)) : List (String × ℚ) :=
  let s := (d.map fun p => p.2).sum
  let s := if s = 0 then 1 else s
  d.map fun p => (p.1, p.2 / s)

/-- `_audience_mix(rng, dt, impressions)` from `services/performance.py`.
It takes the rng but never draws from it, and ignores `impressions`; it is a
pure function of the timestamp.  Note the code's evening test is
`dt.hour >= 18 or dt.hour <= 22`, kept verbatim. -/
def audience_mix (t : ℕ) : AudienceMix :=
  let is_weekend := dayOfWeek t = 5 ∨ dayOfWeek t = 6
  let evening := 18 ≤ hourOfDay t ∨ hourOfDay t ≤ 22
  let base_device : List (String × ℚ) :=
    [("CTV", if is_weekend ∨ evening then 0.45 else 0.30),
     ("DESKTOP", if is_weekend ∨ evening then 0.20 else 0.30),
     ("MOBILE", if is_weekend ∨ evening then 0.35 else 0.40)]
  let base_age : List (String × ℚ) :=
    [("18-24", if is_weekend ∨ evening then 0.16 else 0.12),
     ("25-34", 0.24), ("35-44", 0.22), ("45-54", 0.18),
     ("55-64", 0.13), ("65+", 0.07)]
  { device := normalize_shares base_device
    age := normalize_shares base_age
    gender := [("F", 0.5), ("M", 0.5)]
    life_stage := [("SINGLE", 0.35), ("PARENT", 0.40), ("EMPTY_NEST", 0.25)]
    interest := [("SPORTS", 0.20), ("ENTERTAINMENT", 0.30), ("FOOD", 0.20),
                 ("TECH", 0.15), ("TRAVEL", 0.15)] }

/-- One row of the `CampaignPerformance` table as filled by
`generate_hourly_performance_raw` (plus the temporal breakdown fields of
`create_performance_row`; `human_readable` is a fixed rendering of `hour_ts`
and is represented by `hour_ts` itself). -/
structure RawRow where
  campaign_id : ℕ
  hour_ts : ℕ
  impressions : ℤ
  clicks : ℤ
  ctr : ℚ
  completion_rate : ℤ
  render_rate : ℚ
  fill_rate : ℚ
  response_rate : ℚ
  video_skip_rate : ℚ
  video_start : ℤ
  frequency : ℤ
  reach : ℤ
  requests : ℤ
  responses : ℤ
  eligible_impressions : ℤ
  auctions_won : ℤ
  viewable_impressions : ℤ
  audible_impressions : ℤ
  video_q25 : ℤ
  video_q50 : ℤ
  video_q75 : ℤ
  video_q100 : ℤ
  skips : ℤ
  qr_scans : ℤ
  interactive_engagements : ℤ
  spend : ℤ
  error_count : ℤ
  timeout_count : ℤ
  audience : AudienceMix
  hour_of_day : ℕ
  minute_of_hour : ℕ
  second_of_minute : ℕ
  day_of_week : ℕ
  is_business_hour : Bool
deriving DecidableEq

/-- The per-hour body of `generate_hourly_performance_raw`
(`services/performance.py` lines 226–317), draws in source order.  `factor`
is the temporal factor the orchestrator computed for this hour. -/
def genRawHour (campaign_id : ℕ) (t : ℕ) (factor : ℚ) (r : Rng) : RawRow × Rng :=
  let (base_impressions, r) := r.randint 1000 10000
  let impressions : ℤ := pyInt (max 1 ((base_impressions : ℚ) * factor))
  let (base_ctr, r) := r.uniform 0.001 0.02
  let (ctr_variance, r) := r.uniform 0.8 1.2
  let raw_ctr : ℚ := min 0.05 (max 0.0001 (base_ctr * ctr_variance * factor))
  let clicks : ℤ := max 0 (pyInt ((impressions : ℚ) * raw_ctr))
  let (base_completion, r) := r.randint 70 98
  let completion_bump : ℤ := pyInt (4 * min 1 (max 0 (factor - 1)))
  let completion_count : ℤ := min 98 (base_completion + completion_bump)
  let (base_render, r) := r.uniform 0.95 0.99
  let render_factor : ℚ := min 0.999 (max 0.90 (base_render * factor))
  let _render_count : ℤ := pyInt ((impressions : ℚ) * render_factor)
  let (base_fill, r) := r.uniform 0.85 0.98
  let fill_factor : ℚ := min 0.999 (max 0.80 (base_fill * factor))
  let _fill_count : ℤ := pyInt ((impressions : ℚ) * fill_factor)
  let (base_response, r) := r.uniform 0.01 0.05
  let response_factor : ℚ := min 0.10 (max 0.001 (base_response * factor))
  let _response_count : ℤ := pyInt ((impressions : ℚ) * response_factor)
  let (base_skip, r) := r.uniform 0.10 0.40
  let skip_factor : ℚ := min 0.60 (max 0.05 (base_skip * (2 - factor)))
  let _skips_local : ℤ := pyInt ((impressions : ℚ) * skip_factor)
  let (base_start_rate, r) := r.uniform 0.80 0.95
  let start_factor : ℚ := min 0.99 (max 0.70 (base_start_rate * factor))
  let video_start : ℤ := max 0 (pyInt ((impressions : ℚ) * start_factor))
  let (base_frequency, r) := r.randint 1 4
  let frequency : ℤ :=
    max 1 (min 5 (pyRound ((base_frequency : ℚ) * (1 + 0.15 * max 0 (factor - 1)))))
  let reach : ℤ := max 1 (pyFloorDiv impressions (max 1 frequency))
  let (u_requests, r) := r.uniform 1.1 1.8
  let requests : ℤ := pyInt ((impressions : ℚ) * u_requests)
  let (u_responses, r) := r.uniform 0.92 1.04
  let responses : ℤ := pyInt ((impressions : ℚ) * u_responses)
  let (u_eligible, r) := r.uniform 0.85 0.99
  let eligible_impressions : ℤ := pyInt ((impressions : ℚ) * u_eligible)
  let (u_auctions, r) := r.uniform 0.90 1.02
  let auctions_won : ℤ := pyInt ((impressions : ℚ) * u_auctions)
  let (u_viewable, r) := r.uniform 0.80 0.98
  let viewable_impressions : ℤ :=
    pyInt ((impressions : ℚ) * max 0.70 (min 0.99 (u_viewable * factor)))
  let (u_audible, r) := r.uniform 0.35 0.80
  let audible_impressions : ℤ :=
    pyInt ((impressions : ℚ) *
      max 0.20 (min 0.95 (u_audible *
        (if 18 ≤ hourOfDay t ∨ hourOfDay t ≤ 22 then 1.05 else 0.95))))
  let (u_q25, r) := r.uniform 0.70 0.95
  let video_q25 : ℤ := pyInt ((video_start : ℚ) * max 0.60 (min 0.98 u_q25))
  let (u_q50, r) := r.uniform 0.55 0.90
  let video_q50 : ℤ := pyInt ((video_start : ℚ) * max 0.40 (min 0.90 u_q50))
  let (u_q75, r) := r.uniform 0.40 0.80
  let video_q75 : ℤ := pyInt ((video_start : ℚ) * max 0.25 (min 0.80 u_q75))
  let (u_q100, r) := r.uniform 0.25 0.70
  let video_q100 : ℤ := pyInt ((video_start : ℚ) * max 0.10 (min 0.70 u_q100))
  let (u_skips, r) := r.uniform 0.10 0.40
  let skips : ℤ :=
    pyInt ((video_start : ℚ) * max 0.05 (min 0.60 (u_skips * (2 - min 1.5 factor))))
  let (u_qr, r) := r.uniform 0.0003 0.006
  let qr_scans : ℤ := pyInt ((impressions : ℚ) * u_qr)
  let (u_inter, r) := r.uniform 0.001 0.02
  let interactive_engagements : ℤ := pyInt ((impressions : ℚ) * u_inter)
  let (base_cpm, r) := r.randint 1200 4500
  let (u_cpm, r) := r.uniform 0.9 1.1
  let spend : ℤ :=
    ⌊((impressions : ℚ) * (base_cpm : ℚ) * u_cpm * (0.95 + 0.1 * min 1.5 factor)) / 1000⌋
  let (u_err, r) := r.uniform 0.0005 0.004
  let error_count : ℤ := pyInt ((impressions : ℚ) * u_err)
  let (u_to, r) := r.uniform 0.0005 0.003
  let timeout_count : ℤ := pyInt ((impressions : ℚ) * u_to)
  (⟨campaign_id, t, impressions, clicks, raw_ctr, completion_count, render_factor,
    fill_factor, response_factor, skip_factor, video_start, frequency, reach,
    requests, responses, eligible_impressions, auctions_won, viewable_impressions,
    audible_impressions, video_q25, video_q50, video_q75, video_q100, skips,
    qr_scans, interactive_engagements, spend, error_count, timeout_count,
    audience_mix t, hourOfDay t, 0, 0, dayOfWeek t,
    decide (9 ≤ hourOfDay t ∧ hourOfDay t ≤ 17 ∧ dayOfWeek t < 5)⟩, r)

/-- `safe_div` from `services/performance_utils.py`: the guard is
`denominator == 0`, anything non-zero (including negatives) divides. -/
def safe_div (numerator denominator default : ℚ) : ℚ :=
  if denominator = 0 then default else numerator / denominator

/-- The raw fields of `BaseExtendedPerformanceMetrics`
(`services/performance_ext.py`); all counts are integers, `factor` the float
temporal factor recorded on the row. -/
structure ExtRow where
  campaign_id : ℕ
  hour_ts : ℕ
  requests : ℤ
  responses : ℤ
  eligible_impressions : ℤ
  auctions_won : ℤ
  impressions : ℤ
  viewable_impressions : ℤ
  audible_impressions : ℤ
  video_starts : ℤ
  video_q25 : ℤ
  video_q50 : ℤ
  video_q75 : ℤ
  video_q100 : ℤ
  skips : ℤ
  clicks : ℤ
  qr_scans : ℤ
  interactive_engagements : ℤ
  reach : ℤ
  frequency : ℤ
  spend : ℤ
  error_count : ℤ
  timeout_count : ℤ
  factor : ℚ
deriving DecidableEq

/-- `_pos_int` from `ExtendedPerformanceDataGenerator`: `max(0, int(value))`. -/
def pos_int (value : ℚ) : ℤ := max 0 (pyInt value)

/-- `_is_evening` from `ExtendedPerformanceDataGenerator`: `18 <= dt.hour <= 22`. -/
def is_evening (t : ℕ) : Prop := 18 ≤ hourOfDay t ∧ hourOfDay t ≤ 22

instance (t : ℕ) : Decidable (is_evening t) := by unfold is_evening; infer_instance

/-- `ExtendedPerformanceDataGenerator.generate_raw_metrics`
(`services/performance_ext.py` lines 243–342), draws in source order.  The
re-seeding branch (`if seed is not None: self.rng = Random(seed)`) is handled
by the caller (`genExtRows` below), which passes the state this body starts
from. -/
def genExtHour (campaign_id : ℕ) (t : ℕ) (factor : ℚ) (r : Rng) : ExtRow × Rng :=
  let (base_impressions, r) := r.randint 1000 10000
  let impressions : ℤ := pos_int ((base_impressions : ℚ) * factor)
  let (u_requests, r) := r.uniform 1.1 1.8
  let requests : ℤ := pos_int ((impressions : ℚ) * u_requests)
  let (u_responses, r) := r.uniform 0.92 1.04
  let responses : ℤ := pos_int ((requests : ℚ) * u_responses)
  let (u_eligible, r) := r.uniform 0.85 0.99
  let eligible : ℤ := pos_int ((responses : ℚ) * u_eligible)
  let (u_auctions, r) := r.uniform 0.90 1.02
  let auctions_won : ℤ := pos_int ((eligible : ℚ) * u_auctions)
  let (u_viewability, r) := r.uniform 0.80 0.98
  let viewability : ℚ := max 0.70 (min 0.99 (u_viewability * factor))
  let (u_audibility, r) := r.uniform 0.35 0.80
  let audibility : ℚ :=
    max 0.20 (min 0.95 (u_audibility * (if is_evening t then 1.05 else 0.95)))
  let viewable_impressions : ℤ := pos_int ((impressions : ℚ) * viewability)
  let audible_impressions : ℤ := pos_int ((impressions : ℚ) * audibility)
  let (u_start, r) := r.uniform 0.85 0.97
  let start_rate : ℚ :=
    max 0.70 (min 0.99 (u_start * (if is_evening t then 1.02 else 0.98)))
  let video_starts : ℤ := pos_int ((impressions : ℚ) * start_rate)
  let (u_q25, r) := r.uniform 0.70 0.95
  let q25_rate : ℚ := max 0.60 (min 0.98 u_q25)
  let (u_q50, r) := r.uniform 0.55 0.90
  let q50_rate : ℚ := max 0.40 (min q25_rate u_q50)
  let (u_q75, r) := r.uniform 0.40 0.80
  let q75_rate : ℚ := max 0.25 (min q50_rate u_q75)
  let (u_q100, r) := r.uniform 0.25 0.70
  let q100_rate : ℚ := max 0.10 (min q75_rate u_q100)
  let video_q25 : ℤ := pos_int ((video_starts : ℚ) * q25_rate)
  let video_q50 : ℤ := pos_int ((video_starts : ℚ) * q50_rate)
  let video_q75 : ℤ := pos_int ((video_starts : ℚ) * q75_rate)
  let video_q100 : ℤ := pos_int ((video_starts : ℚ) * q100_rate)
  let (base_skip, r) := r.uniform 0.10 0.40
  let skip_rate : ℚ := max 0.05 (min 0.60 (base_skip * (2 - min 1.5 factor)))
  let skips : ℤ := pos_int ((video_starts : ℚ) * skip_rate)
  let (u_ctr, r) := r.uniform 0.001 0.02
  let (u_ctr_var, r) := r.uniform 0.8 1.2
  let ctr : ℚ := max 0.0001 (min 0.05 (u_ctr * u_ctr_var * factor))
  let clicks : ℤ := pos_int ((impressions : ℚ) * ctr)
  let (u_qr, r) := r.uniform 0.0003 0.006
  let qr_scans : ℤ := pos_int ((impressions : ℚ) * u_qr)
  let (u_inter, r) := r.uniform 0.001 0.02
  let interactive_engagements : ℤ := pos_int ((impressions : ℚ) * u_inter)
  let (base_freq, r) := r.uniform 1.0 4.2
  let freq : ℤ := pyRound (max 1.0 (min 5.0 (base_freq * (1 + 0.12 * max 0 (factor - 1)))))
  let reach : ℤ := max 1 (pyFloorDiv impressions (max 1 freq))
  let (base_cpm, r) := r.randint 1200 4500
  let (u_cpm, r) := r.uniform 0.9 1.1
  let cpm : ℤ := pyInt ((base_cpm : ℚ) * u_cpm * (0.95 + 0.1 * min 1.5 factor))
  let spend : ℤ := if 0 < impressions then pyFloorDiv (impressions * cpm) 1000 else 0
  let (u_err, r) := r.uniform 0.0005 0.004
  let error_count : ℤ := pos_int ((requests : ℚ) * u_err)
  let (u_to, r) := r.uniform 0.0005 0.003
  let timeout_count : ℤ := pos_int ((requests : ℚ) * u_to)
  (⟨campaign_id, t, requests, responses, eligible, auctions_won, impressions,
    viewable_impressions, audible_impressions, video_starts, video_q25, video_q50,
    video_q75, video_q100, skips, clicks, qr_scans, interactive_engagements,
    reach, freq, spend, error_count, timeout_count, factor⟩, r)

/-- Computed field `fill_rate` of `ExtendedPerformanceMetrics`. -/
def ExtRow.fill_rate (m : ExtRow) : ℚ :=
  if m.requests ≤ 0 then 0 else (m.eligible_impressions : ℚ) / (m.requests : ℚ)

/-- Computed field `ctr` of `ExtendedPerformanceMetrics`. -/
def ExtRow.ctr (m : ExtRow) : ℚ :=
  if m.impressions ≤ 0 then 0 else (m.clicks : ℚ) / (m.impressions : ℚ)

/-- Computed field `avg_watch_time_seconds` of `ExtendedPerformanceMetrics`:
weighted quartile-segment midpoints over a 30-second reference asset. -/
def ExtRow.avg_watch_time_seconds (m : ExtRow) : ℚ :=
  if m.video_starts ≤ 0 then 0
  else
    let asset_seconds : ℚ := 30
    let seg0 : ℤ := max 0 (m.video_starts - m.video_q25)
    let seg1 : ℤ := max 0 (m.video_q25 - m.video_q50)
    let seg2 : ℤ := max 0 (m.video_q50 - m.video_q75)
    let seg3 : ℤ := max 0 (m.video_q75 - m.video_q100)
    let seg4 : ℤ := max 0 m.video_q100
    let m0 := asset_seconds * 0.125
    let m1 := asset_seconds * 0.375
    let m2 := asset_seconds * 0.625
    let m3 := asset_seconds * 0.875
    let m4 := asset_seconds * 1.00
    let total_watch :=
      (seg0 : ℚ) * m0 + (seg1 : ℚ) * m1 + (seg2 : ℚ) * m2 + (seg3 : ℚ) * m3 + (seg4 : ℚ) * m4
    total_watch / (m.video_starts : ℚ)

/-- A flight window: inclusive start and end dates, as day numbers. -/
structure Flight where
  start_date : ℕ
  end_date : ℕ
deriving DecidableEq

/-- One row of the `CampaignPerformanceExtended` table as written by
`generate_hourly_performance_ext`: the raw metrics plus the persisted derived
watch time and the temporal breakdown fields (`human_readable` is a fixed
rendering of `hour_ts`, represented by `hour_ts` itself). -/
structure ExtDbRow where
  raw : ExtRow
  avg_watch_time_seconds : ℤ
  hour_of_day : ℕ
  minute_of_hour : ℕ
  second_of_minute : ℕ
  day_of_week : ℕ
  is_business_hour : Bool
deriving DecidableEq

/-- Assembly of the `CampaignPerformanceExtended` row from the raw metrics
(`services/performance_ext.py` lines 424–464). -/
def extDbRow (m : ExtRow) : ExtDbRow :=
  ⟨m, pyInt m.avg_watch_time_seconds, hourOfDay m.hour_ts, 0, 0, dayOfWeek m.hour_ts,
   decide (9 ≤ hourOfDay m.hour_ts ∧ hourOfDay m.hour_ts ≤ 17 ∧ dayOfWeek m.hour_ts < 5)⟩

/-- The storage visible to the generators: campaigns, flights keyed by
campaign id, and the two performance tables. -/
structure Store where
  campaigns : List ℕ
  flights : List (ℕ × Flight)
  perf : List RawRow
  perf_ext : List ExtDbRow
deriving DecidableEq

/-- `get_campaign_and_flight`: `some` exactly when both the campaign and its
flight exist. -/
def get_campaign_and_flight (st : Store) (c : ℕ) : Option Flight :=
  if st.campaigns.contains c then (st.flights.find? fun p => p.1 == c).map Prod.snd
  else none

/-- `clear_existing_performance`: delete all rows of the campaign. -/
def clear_existing_performance {α : Type} (camp : α → ℕ) (rows : List α) (c : ℕ) :
    List α :=
  rows.filter fun row => camp row != c

/-- `_hours_between`: hourly timestamps from `s` to `e` inclusive (empty when
`e < s`). -/
def hours_between (s e : ℕ) : List ℕ := (List.range (e + 1 - s)).map (s + ·)

/-- The raw generation loop: one row per hour, threading the single rng
created at the top of `generate_hourly_performance_raw`. -/
def genRawRows (c : ℕ) (φ : ℕ → ℚ) (hours : List ℕ) (r : Rng) : List RawRow × Rng :=
  match hours with
  | [] => ([], r)
  | t :: rest =>
    let (row, r') := genRawHour c t (φ t) r
    let (rows, r'') := genRawRows c φ rest r'
    (row :: rows, r'')

/-- Result of one orchestrator run: the returned row count, the batch of rows
written, and the storage state afterwards. -/
structure RawRun where
  count : ℕ
  rows : List RawRow
  store : Store
deriving DecidableEq

/-- `generate_hourly_performance_raw(campaign_id, seed, replace)`.  `σ` is the
stream `Random(seed)` yields and `φ` the temporal factor engine
(`calculate_temporal_factor`), taken as parameters; the flight window is
aligned to whole hours: 00:00 of `start_date` to 23:00 of `end_date`. -/
def generate_hourly_performance_raw (c : ℕ) (σ : ℕ → ℚ) (φ : ℕ → ℕ → ℕ → ℚ)
    (replace : Bool) (st : Store) : RawRun :=
  let r : Rng := ⟨σ, 0⟩
  match get_campaign_and_flight st c with
  | none => ⟨0, [], st⟩
  | some fl =>
    let startTs := 24 * fl.start_date
    let endTs := 24 * fl.end_date + 23
    let st1 :=
      if replace then
        { st with perf := clear_existing_performance (fun row => row.campaign_id) st.perf c }
      else st
    let (rows, _) := genRawRows c (fun t => φ startTs t endTs) (hours_between startTs endTs) r
    ⟨rows.length, rows, { st1 with perf := st1.perf ++ rows }⟩

/-- The extended generation loop.  Mirrors the body of the hour loop in
`generate_hourly_performance_ext`: each hour calls
`generate_raw_metrics(campaign_id, hour, factor, seed)`, whose first action is
`if seed is not None: self.rng = Random(seed)` — so when a seed was supplied
(`reseed = some s`, with `s` the stream of that seed) the rng is re-created
from the seed before every hour, and only when `reseed = none` does the hour
continue the threaded stream. -/
def genExtRows (c : ℕ) (φ : ℕ → ℚ) (reseed : Option (ℕ → ℚ)) (hours : List ℕ)
    (r : Rng) : List ExtRow × Rng :=
  match hours with
  | [] => ([], r)
  | t :: rest =>
    let r0 := match reseed with | some s => (⟨s, 0⟩ : Rng) | none => r
    let (row, r1) := genExtHour c t (φ t) r0
    let (rows, r2) := genExtRows c φ reseed rest r1
    (row :: rows, r2)

/-- Result of one extended orchestrator run. -/
structure ExtRun where
  count : ℕ
  rows : List ExtDbRow
  store : Store
deriving DecidableEq

/-- `generate_hourly_performance_ext(campaign_id, seed, replace)`.
`seedStream` is `some s` when a seed was supplied (`s` the stream of that
seed, used both for `ExtendedPerformanceDataGenerator(seed)` and for the
per-hour re-seeding); `entropy` is the stream `Random(None)` draws when no
seed is given. -/
def generate_hourly_performance_ext (c : ℕ) (seedStream : Option (ℕ → ℚ))
    (entropy : ℕ → ℚ) (φ : ℕ → ℕ → ℕ → ℚ) (replace : Bool) (st : Store) : ExtRun :=
  let r : Rng := ⟨seedStream.getD entropy, 0⟩
  match get_campaign_and_flight st c with
  | none => ⟨0, [], st⟩
  | some fl =>
    let startTs := 24 * fl.start_date
    let endTs := 24 * fl.end_date + 23
    let st1 :=
      if replace then
        { st with perf_ext :=
            clear_existing_performance (fun row => row.raw.campaign_id) st.perf_ext c }
      else st
    let (raws, _) :=
      genExtRows c (fun t => φ startTs t endTs) seedStream (hours_between startTs endTs) r
    let rows := raws.map extDbRow
    ⟨rows.length, rows, { st1 with perf_ext := st1.perf_ext ++ rows }⟩

/-- A Python `datetime`, abstracted to the attributes the temporal factor
engine reads: `hour`, `weekday()`, `timetuple().tm_yday`, and the epoch
second used in timestamp differences. -/
structure PyDateTime where
  epochSec : ℤ
  hour : ℤ
  weekday : ℤ
  yday : ℤ

/-- `TimestampDataGenerator.hourly_boost`: Gaussian uplift centered at 13:00
inside 09:00–17:00, 1.0 outside. -/
noncomputable def hourly_boost (dt : PyDateTime) : ℝ :=
  if 9 ≤ dt.hour ∧ dt.hour ≤ 17 then
    1 + 0.45 * Real.exp (-0.5 * (((dt.hour : ℝ) - 13) / 2.5) * (((dt.hour : ℝ) - 13) / 2.5))
  else 1

/-- `TimestampDataGenerator.dow_factor`. -/
noncomputable def dow_factor (dt : PyDateTime) : ℝ :=
  if dt.weekday = 4 then 0.97
  else if dt.weekday = 5 then 0.88
  else if dt.weekday = 6 then 0.92
  else 1.00

/-- `TimestampDataGenerator.ramp_factor`: logistic S-curve over the elapsed
fraction of the flight, with weekly undulation. -/
noncomputable def ramp_factor (s c e : PyDateTime) : ℝ :=
  let total_hours : ℝ := max 1 (((e.epochSec - s.epochSec : ℤ) : ℝ) / 3600)
  let t : ℝ := min 1 (max 0 ((((c.epochSec - s.epochSec : ℤ) : ℝ) / 3600) / total_hours))
  let x := (t - 0.5) * 6
  let sCurve := 1 / (1 + Real.exp (-x))
  let ramp := 0.85 + 0.30 * sCurve
  let weekly :=
    1 + 0.03 * Real.sin (2 * Real.pi * ((c.epochSec - s.epochSec : ℤ) : ℝ) / (168 * 3600))
  ramp * weekly

/-- `TimestampDataGenerator.annual_factor`: cosine over day-of-year scaled to
roughly `[0.8, 1.0]`. -/
noncomputable def annual_factor (dt : PyDateTime) : ℝ :=
  let x := 2 * Real.pi * ((dt.yday : ℝ) - 1) / 365
  (Real.cos x + 1) / 10 + 0.8

/-- `TimestampDataGenerator.calculate_temporal_factor`: the product of the
four sub-factors. -/
noncomputable def calculate_temporal_factor (s c e : PyDateTime) : ℝ :=
  hourly_boost c * dow_factor c * ramp_factor s c e * annual_factor c

/-! ### Helper lemmas -/

lemma pyInt_mono {a b : ℚ} (h : a ≤ b) : pyInt a ≤ pyInt b := by
  unfold pyInt
  split_ifs with ha hb hb
  · exact Int.floor_le_floor h
  · exact absurd (le_trans ha h) hb
  · have h1 : (0:ℤ) ≤ ⌊-a⌋ := Int.floor_nonneg.mpr (by push_neg at ha; linarith)
    have h2 : (0:ℤ) ≤ ⌊b⌋ := Int.floor_nonneg.mpr hb
    omega
  · have := Int.floor_le_floor (neg_le_neg h)
    omega

lemma pyInt_nonneg {q : ℚ} (h : 0 ≤ q) : 0 ≤ pyInt q := by
  unfold pyInt
  rw [if_pos h]
  exact Int.floor_nonneg.mpr h

lemma pos_int_nonneg (q : ℚ) : 0 ≤ pos_int q := le_max_left 0 _

lemma pos_int_cast_nonneg (q : ℚ) : (0:ℚ) ≤ ((pos_int q : ℤ) : ℚ) := by
  exact_mod_cast pos_int_nonneg q

lemma pos_int_mono {a b : ℚ} (h : a ≤ b) : pos_int a ≤ pos_int b :=
  max_le_max le_rfl (pyInt_mono h)

/-! ### Claims -/

/-- Claim C1 (amended): every row of the extended generator
`generate_raw_metrics` has monotone video quartile counts
`video_q25 ≥ video_q50 ≥ video_q75 ≥ video_q100 ≥ 0`, the quartile rates
being forced monotone by the successive `min()` chain. -/
theorem ext_video_quartiles_monotone (c t : ℕ) (factor : ℚ) (r : Rng) :
    ((genExtHour c t factor r).1.video_q25 ≥ (genExtHour c t factor r).1.video_q50) ∧
    ((genExtHour c t factor r).1.video_q50 ≥ (genExtHour c t factor r).1.video_q75) ∧
    ((genExtHour c t factor r).1.video_q75 ≥ (genExtHour c t factor r).1.video_q100) ∧
    ((genExtHour c t factor r).1.video_q100 ≥ 0) := by
  obtain ⟨σ, i⟩ := r
  simp only [genExtHour, Rng.uniform, Rng.randint, Rng.next]
  refine ⟨?_, ?_, ?_, pos_int_nonneg _⟩
  · exact pos_int_mono (mul_le_mul_of_nonneg_left
      (max_le (le_max_of_le_left (by norm_num)) (min_le_left _ _))
      (pos_int_cast_nonneg _))
  · exact pos_int_mono (mul_le_mul_of_nonneg_left
      (max_le (le_max_of_le_left (by norm_num)) (min_le_left _ _))
      (pos_int_cast_nonneg _))
  · exact pos_int_mono (mul_le_mul_of_nonneg_left
      (max_le (le_max_of_le_left (by norm_num)) (min_le_left _ _))
      (pos_int_cast_nonneg _))

/-- A unit stream (all samples in `[0,1]`) whose 17th draw is 0 and every
other draw 1/2; it makes the independently drawn `q50` rate of the basic raw
generator exceed its `q25` rate. -/
def streamQ50 : ℕ → ℚ := fun k => if k = 16 then 0 else 1/2

/-- Claim C1 counterexample: the basic generator
`generate_hourly_performance_raw` draws its quartile rates independently
(no `min()` chaining), and on the exhibited stream the first row of a
one-day flight for campaign 1 has `video_q25 = 3368 < 3488 = video_q50`. -/
theorem raw_video_quartiles_counterexample :
    (generate_hourly_performance_raw 1 streamQ50 (fun _ _ _ => 1) true
        ⟨[1], [(1, ⟨0, 0⟩)], [], []⟩).rows.head? =
      some (genRawHour 1 0 1 ⟨streamQ50, 0⟩).1 ∧
    ¬ ((genRawHour 1 0 1 ⟨streamQ50, 0⟩).1.video_q25 ≥
       (genRawHour 1 0 1 ⟨streamQ50, 0⟩).1.video_q50) := by
  refine ⟨rfl, ?_⟩
  simp only [genRawHour, Rng.uniform, Rng.randint, Rng.next, streamQ50]
  norm_num [pyInt]

/-- The all-halves unit stream. -/
def constHalf : ℕ → ℚ := fun _ => 1/2

lemma unitStream_constHalf : UnitStream constHalf := fun _ => by norm_num [constHalf]

/-- A unit stream whose fifth draw (the ext generator's auction-win draw) is
1, all others 1/2. -/
def streamA4 : ℕ → ℚ := fun k => if k = 4 then 1 else 1/2

/-- Claim C4 counterexample: neither generator computes
`min(eligible, max(0.8·eligible+1, …))`; on the exhibited stream the first
row of an extended run for campaign 1 has `eligible_impressions = 7189` but
`auctions_won = 7332`, violating `auctions_won ≤ eligible_impressions`. -/
theorem ext_auctions_exceed_eligible_counterexample :
    (generate_hourly_performance_ext 1 (some streamA4) (fun _ => 1/2) (fun _ _ _ => 1) true
        ⟨[1], [(1, ⟨0, 0⟩)], [], []⟩).rows.head? =
      some (extDbRow (genExtHour 1 0 1 ⟨streamA4, 0⟩).1) ∧
    ¬ ((genExtHour 1 0 1 ⟨streamA4, 0⟩).1.auctions_won ≤
       (genExtHour 1 0 1 ⟨streamA4, 0⟩).1.eligible_impressions) := by
  refine ⟨rfl, ?_⟩
  simp only [genExtHour, Rng.uniform, Rng.randint, Rng.next, streamA4]
  norm_num [pos_int, pyInt, is_evening, hourOfDay]

/-- Claim C4 (amended): the extended generator computes
`auctions_won = max(0, int(eligible · uniform(0.90, 1.02)))` (the basic raw
generator analogously uses `impressions · uniform(0.90, 1.02)`); hence
`auctions_won` can exceed `eligible_impressions` but never exceeds
`max(0, int(1.02 · eligible))`. -/
theorem ext_auctions_won_formula_and_bound (c t : ℕ) (factor : ℚ) (σ : ℕ → ℚ) (i : ℕ)
    (hσ : UnitStream σ) :
    (genExtHour c t factor ⟨σ, i⟩).1.auctions_won =
      pos_int (((genExtHour c t factor ⟨σ, i⟩).1.eligible_impressions : ℚ) *
        (0.90 + 0.12 * σ (i + 4))) ∧
    (genExtHour c t factor ⟨σ, i⟩).1.auctions_won ≤
      pos_int (((genExtHour c t factor ⟨σ, i⟩).1.eligible_impressions : ℚ) * 1.02) := by
  have h4 := hσ (i + 4)
  simp only [genExtHour, Rng.uniform, Rng.randint, Rng.next]
  constructor
  · norm_num
  · exact pos_int_mono (mul_le_mul_of_nonneg_left (by nlinarith [h4.1, h4.2])
      (pos_int_cast_nonneg _))

/-- Witness for the amended C4 theorem at the all-halves stream. -/
theorem ext_auctions_won_formula_and_bound_witness :
    UnitStream constHalf ∧
    ((genExtHour 1 0 1 ⟨constHalf, 0⟩).1.auctions_won =
      pos_int (((genExtHour 1 0 1 ⟨constHalf, 0⟩).1.eligible_impressions : ℚ) *
        (0.90 + 0.12 * constHalf 4)) ∧
     (genExtHour 1 0 1 ⟨constHalf, 0⟩).1.auctions_won ≤
      pos_int (((genExtHour 1 0 1 ⟨constHalf, 0⟩).1.eligible_impressions : ℚ) * 1.02)) :=
  ⟨unitStream_constHalf,
   ext_auctions_won_formula_and_bound 1 0 1 constHalf 0 unitStream_constHalf⟩

/-- Modelled from the spec: the audible-impressions formula exactly as claim
C5 states it — `round(impressions · clamp(u · (1.05 if hour∈[18,22] else
0.95), 0.20, 0.95))` with `u` the `uniform(0.35, 0.80)` draw. -/
def audibleSpec (impressions : ℤ) (u : ℚ) (h : ℕ) : ℤ :=
  pyRound ((impressions : ℚ) *
    max 0.20 (min 0.95 (u * (if 18 ≤ h ∧ h ≤ 22 then 1.05 else 0.95))))

/-- Claim C5 (code bug): at 03:00 — not an evening hour — the basic raw
generator still applies the 1.05 evening multiplier, because its inline
condition `hour.hour >= 18 or hour.hour <= 22` is true for every hour of day;
with factor 1 and all-halves draws (impressions 5500, audible draw 0.575) the
code stores 3320 where the claimed formula yields 3004.  The parallel
extended generator's `_is_evening` (`18 <= dt.hour <= 22`) matches the
claim. -/
theorem raw_audible_evening_bug :
    (genRawHour 1 3 1 ⟨constHalf, 0⟩).1.audible_impressions = 3320 ∧
    audibleSpec (genRawHour 1 3 1 ⟨constHalf, 0⟩).1.impressions
      (0.35 + 0.45 * constHalf 15) 3 = 3004 ∧
    (3320 : ℤ) ≠ 3004 := by
  refine ⟨?_, ?_, by norm_num⟩
  · simp only [genRawHour, Rng.uniform, Rng.randint, Rng.next, constHalf, hourOfDay]
    norm_num [pyInt]
  · simp only [genRawHour, Rng.uniform, Rng.randint, Rng.next, constHalf, hourOfDay]
    norm_num [audibleSpec, pyRound, pyInt]

/-- Claim C6 counterexample: the basic raw generator stores an eagerly
computed `fill_rate` (the sampled fill factor, here 0.915) that differs from
`safe_div(eligible_impressions, requests)` (here 5060/7975) on the same
row. -/
theorem raw_fill_rate_counterexample :
    (genRawHour 1 0 1 ⟨constHalf, 0⟩).1.fill_rate ≠
      safe_div ((genRawHour 1 0 1 ⟨constHalf, 0⟩).1.eligible_impressions : ℚ)
        ((genRawHour 1 0 1 ⟨constHalf, 0⟩).1.requests : ℚ) 0 := by
  simp only [genRawHour, Rng.uniform, Rng.randint, Rng.next, constHalf]
  norm_num [safe_div, pyInt]

/-- Claim C6 (amended): the extended metrics layer does satisfy the canonical
mapping — `fill_rate = safe_div(eligible_impressions, requests)` for every
row with non-negative `requests` — but the basic raw generator persists
`fill_rate` as the sampled factor
`clamp(uniform(0.85, 0.98) · factor, 0.80, 0.999)`, which is not derived from
`eligible_impressions / requests`. -/
theorem fill_rate_canonical_amended (c t : ℕ) (factor : ℚ) (σ : ℕ → ℚ) (i : ℕ)
    (m : ExtRow) (hm : 0 ≤ m.requests) :
    ExtRow.fill_rate m = safe_div (m.eligible_impressions : ℚ) (m.requests : ℚ) 0 ∧
    (genRawHour c t factor ⟨σ, i⟩).1.fill_rate =
      min 0.999 (max 0.80 ((0.85 + 0.13 * σ (i + 5)) * factor)) := by
  constructor
  · unfold ExtRow.fill_rate safe_div
    rcases lt_or_eq_of_le hm with h | h
    · rw [if_neg (by omega), if_neg (by exact_mod_cast h.ne')]
    · rw [if_pos (by omega), if_pos (by exact_mod_cast h.symm)]
  · simp only [genRawHour, Rng.uniform, Rng.randint, Rng.next]
    norm_num

/-- The all-zero extended metrics record. -/
def zeroExtRow : ExtRow :=
  ⟨0, 0, 0, 0, 0, 0, 0, 0, 0, 0, 0, 0, 0, 0, 0, 0, 0, 0, 0, 0, 0, 0, 0, 0⟩

/-- Witness for the amended C6 theorem at the all-zero record and the
all-halves stream. -/
theorem fill_rate_canonical_amended_witness :
    (0 : ℤ) ≤ zeroExtRow.requests ∧
    (ExtRow.fill_rate zeroExtRow =
      safe_div (zeroExtRow.eligible_impressions : ℚ) (zeroExtRow.requests : ℚ) 0 ∧
     (genRawHour 1 0 1 ⟨constHalf, 0⟩).1.fill_rate =
      min 0.999 (max 0.80 ((0.85 + 0.13 * constHalf 5) * 1))) :=
  ⟨le_refl 0, fill_rate_canonical_amended 1 0 1 constHalf 0 zeroExtRow (le_refl 0)⟩

/-- Claim C7 counterexample: `safe_div` only guards `denominator == 0`; at the
negative denominator −1 it returns `n/d = −1`, not the default 0 that the
claim's "`n/d` if `d > 0`, default otherwise" prescribes. -/
theorem safe_div_negative_denominator_counterexample :
    safe_div 1 (-1) 0 = -1 ∧ ((-1 : ℚ) ≠ 0) := by
  norm_num [safe_div]

/-- Claim C7 (amended): `safe_div(n, d, default)` returns `n/d` whenever
`d ≠ 0` (in particular for every `d > 0`, as the claim states) and `default`
exactly when `d = 0`; and a metrics record with `impressions = 0` yields
`ctr = 0.0` with no division performed. -/
theorem safe_div_guard_amended (n d df : ℚ) (m : ExtRow) :
    (d ≠ 0 → safe_div n d df = n / d) ∧ (d = 0 → safe_div n d df = df) ∧
    (m.impressions = 0 → ExtRow.ctr m = 0) := by
  refine ⟨fun h => by rw [safe_div, if_neg h], fun h => by rw [safe_div, if_pos h],
    fun h => ?_⟩
  rw [ExtRow.ctr, if_pos (by omega)]

/-- Witness for the amended C7 theorem. -/
theorem safe_div_guard_amended_witness :
    safe_div 6 3 0 = 6 / 3 ∧ safe_div 6 0 5 = 5 ∧ ExtRow.ctr zeroExtRow = 0 :=
  ⟨(safe_div_guard_amended 6 3 0 zeroExtRow).1 (by norm_num),
   (safe_div_guard_amended 6 0 5 zeroExtRow).2.1 rfl,
   (safe_div_guard_amended 6 0 5 zeroExtRow).2.2 rfl⟩

/-- Claim C10: for any metrics record with `video_starts > 0` and monotone
quartile counts bounded by starts, `avg_watch_time_seconds` lies between the
first segment midpoint 3.75 and the 30-second asset length; for
`video_starts ≤ 0` it is exactly 0. -/
theorem avg_watch_time_bounds (m : ExtRow) :
    (0 < m.video_starts → m.video_q25 ≤ m.video_starts → m.video_q50 ≤ m.video_q25 →
     m.video_q75 ≤ m.video_q50 → m.video_q100 ≤ m.video_q75 → 0 ≤ m.video_q100 →
     (15/4 : ℚ) ≤ ExtRow.avg_watch_time_seconds m ∧
       ExtRow.avg_watch_time_seconds m ≤ 30) ∧
    (m.video_starts ≤ 0 → ExtRow.avg_watch_time_seconds m = 0) := by
  constructor
  · intro h1 h2 h3 h4 h5 h6
    unfold ExtRow.avg_watch_time_seconds
    rw [if_neg (by omega)]
    rw [max_eq_right (by omega), max_eq_right (by omega), max_eq_right (by omega),
        max_eq_right (by omega), max_eq_right h6]
    have hS : (0:ℚ) < (m.video_starts : ℚ) := by exact_mod_cast h1
    have c2 : (m.video_q25 : ℚ) ≤ (m.video_starts : ℚ) := by exact_mod_cast h2
    have c3 : (m.video_q50 : ℚ) ≤ (m.video_q25 : ℚ) := by exact_mod_cast h3
    have c4 : (m.video_q75 : ℚ) ≤ (m.video_q50 : ℚ) := by exact_mod_cast h4
    have c5 : (m.video_q100 : ℚ) ≤ (m.video_q75 : ℚ) := by exact_mod_cast h5
    have c6 : (0:ℚ) ≤ (m.video_q100 : ℚ) := by exact_mod_cast h6
    constructor
    · rw [le_div_iff₀ hS]
      push_cast
      nlinarith
    · rw [div_le_iff₀ hS]
      push_cast
      nlinarith
  · intro h
    unfold ExtRow.avg_watch_time_seconds
    rw [if_pos h]

/-- A concrete record with 4 video starts and quartile counts 3, 2, 1, 1. -/
def watchRow : ExtRow :=
  ⟨1, 0, 0, 0, 0, 0, 0, 0, 0, 4, 3, 2, 1, 1, 0, 0, 0, 0, 0, 0, 0, 0, 0, 1⟩

/-- Witness for C10 at `watchRow` (positive starts) and `zeroExtRow`
(zero starts). -/
theorem avg_watch_time_bounds_witness :
    ((15/4 : ℚ) ≤ ExtRow.avg_watch_time_seconds watchRow ∧
     ExtRow.avg_watch_time_seconds watchRow ≤ 30) ∧
    ExtRow.avg_watch_time_seconds zeroExtRow = 0 :=
  ⟨(avg_watch_time_bounds watchRow).1 (by decide) (by decide) (by decide) (by decide)
     (by decide) (by decide),
   (avg_watch_time_bounds zeroExtRow).2 (le_refl 0)⟩

/-- Claim C8: the temporal factor is strictly positive and is definitionally
the product of the four sub-factors (hour-of-day boost, day-of-week, flight
ramp, annual seasonality). -/
theorem calculate_temporal_factor_pos_and_product (s c e : PyDateTime) :
    0 < calculate_temporal_factor s c e ∧
    calculate_temporal_factor s c e =
      hourly_boost c * dow_factor c * ramp_factor s c e * annual_factor c := by
  refine ⟨?_, rfl⟩
  have hb : 0 < hourly_boost c := by
    unfold hourly_boost
    split_ifs
    · nlinarith [Real.exp_pos
        (-0.5 * (((c.hour : ℝ) - 13) / 2.5) * (((c.hour : ℝ) - 13) / 2.5))]
    · norm_num
  have hd : 0 < dow_factor c := by
    unfold dow_factor; split_ifs <;> norm_num
  have hr : 0 < ramp_factor s c e := by
    simp only [ramp_factor]
    apply mul_pos
    · have h3 : (0:ℝ) < 1 / (1 + Real.exp
          (-((min 1 (max 0 ((((c.epochSec - s.epochSec : ℤ) : ℝ) / 3600) /
              max 1 (((e.epochSec - s.epochSec : ℤ) : ℝ) / 3600))) - 0.5) * 6))) := by
        positivity
      nlinarith
    · nlinarith [Real.neg_one_le_sin
        (2 * Real.pi * ((c.epochSec - s.epochSec : ℤ) : ℝ) / (168 * 3600))]
  have ha : 0 < annual_factor c := by
    simp only [annual_factor]
    nlinarith [Real.neg_one_le_cos (2 * Real.pi * ((c.yday : ℝ) - 1) / 365)]
  exact mul_pos (mul_pos (mul_pos hb hd) hr) ha

lemma genRawHour_state (c t : ℕ) (f : ℚ) (σ : ℕ → ℚ) (i : ℕ) :
    (genRawHour c t f ⟨σ, i⟩).2 = ⟨σ, i + 27⟩ := by
  simp only [genRawHour, Rng.uniform, Rng.randint, Rng.next]

lemma genExtHour_state (c t : ℕ) (f : ℚ) (σ : ℕ → ℚ) (i : ℕ) :
    (genExtHour c t f ⟨σ, i⟩).2 = ⟨σ, i + 22⟩ := by
  simp only [genExtHour, Rng.uniform, Rng.randint, Rng.next]

lemma genRawRows_get (c : ℕ) (φ : ℕ → ℚ) (σ : ℕ → ℚ) :
    ∀ (hours : List ℕ) (i k : ℕ),
      (genRawRows c φ hours ⟨σ, i⟩).1.get? k =
        (hours.get? k).map (fun t => (genRawHour c t (φ t) ⟨σ, i + 27 * k⟩).1) := by
  intro hours
  induction hours with
  | nil => intro i k; simp [genRawRows]
  | cons t rest ih =>
    intro i k
    have hpair : genRawHour c t (φ t) ⟨σ, i⟩ =
        ((genRawHour c t (φ t) ⟨σ, i⟩).1, (⟨σ, i + 27⟩ : Rng)) := by
      rw [← genRawHour_state c t (φ t) σ i]
    rw [genRawRows, hpair]
    cases k with
    | zero => simp
    | succ k =>
      simp only [List.get?]
      rw [show i + 27 * (k + 1) = (i + 27) + 27 * k from by ring]
      exact ih (i + 27) k

lemma genExtRows_none_get (c : ℕ) (φ : ℕ → ℚ) (σ : ℕ → ℚ) :
    ∀ (hours : List ℕ) (i k : ℕ),
      (genExtRows c φ none hours ⟨σ, i⟩).1.get? k =
        (hours.get? k).map (fun t => (genExtHour c t (φ t) ⟨σ, i + 22 * k⟩).1) := by
  intro hours
  induction hours with
  | nil => intro i k; simp [genExtRows]
  | cons t rest ih =>
    intro i k
    have hpair : genExtHour c t (φ t) ⟨σ, i⟩ =
        ((genExtHour c t (φ t) ⟨σ, i⟩).1, (⟨σ, i + 22⟩ : Rng)) := by
      rw [← genExtHour_state c t (φ t) σ i]
    rw [genExtRows, hpair]
    cases k with
    | zero => simp
    | succ k =>
      simp only [List.get?]
      rw [show i + 22 * (k + 1) = (i + 22) + 22 * k from by ring]
      exact ih (i + 22) k

lemma genExtRows_some_get (c : ℕ) (φ : ℕ → ℚ) (s : ℕ → ℚ) :
    ∀ (hours : List ℕ) (r : Rng) (k : ℕ),
      (genExtRows c φ (some s) hours r).1.get? k =
        (hours.get? k).map (fun t => (genExtHour c t (φ t) ⟨s, 0⟩).1) := by
  intro hours
  induction hours with
  | nil => intro r k; simp [genExtRows]
  | cons t rest ih =>
    intro r k
    rw [genExtRows]
    cases k with
    | zero => simp
    | succ k =>
      simp only [List.get?]
      exact ih _ k

/-- Claim C3 (amended): within one run the basic generation loop consumes all
randomness from the single stream seeded once, in fixed per-hour draw order —
hour `k` starts exactly where hour `k-1` left off, 27 draws later (and the
extended loop likewise, 22 draws per hour, when no per-call seed is supplied);
but when a seed is supplied to the extended run, `generate_raw_metrics`
re-creates the rng from the seed at the start of every hour, so each hour
reads the stream from index 0. -/
theorem rng_single_stream_threading (c : ℕ) (φ : ℕ → ℚ) (σ s : ℕ → ℚ)
    (hours : List ℕ) (k : ℕ) :
    ((genRawRows c φ hours ⟨σ, 0⟩).1.get? k =
      (hours.get? k).map (fun t => (genRawHour c t (φ t) ⟨σ, 27 * k⟩).1)) ∧
    ((genExtRows c φ none hours ⟨σ, 0⟩).1.get? k =
      (hours.get? k).map (fun t => (genExtHour c t (φ t) ⟨σ, 22 * k⟩).1)) ∧
    ((genExtRows c φ (some s) hours ⟨σ, 0⟩).1.get? k =
      (hours.get? k).map (fun t => (genExtHour c t (φ t) ⟨s, 0⟩).1)) := by
  refine ⟨?_, ?_, genExtRows_some_get c φ s hours ⟨σ, 0⟩ k⟩
  · have h := genRawRows_get c φ σ hours 0 k
    simpa using h
  · have h := genExtRows_none_get c φ σ hours 0 k
    simpa using h

/-- A unit stream whose first draw is 1/2 and every later draw 0. -/
def streamImp : ℕ → ℚ := fun k => if k = 0 then 1/2 else 0

/-- Claim C3 counterexample: in a seeded extended run, the second hour's row
is generated from the seed's stream restarted at index 0 (impressions 5500 —
identical to the first hour's), whereas continuing the stream at index 22,
as the claim requires, would give impressions 1000. -/
theorem ext_reseeds_every_hour_counterexample :
    (generate_hourly_performance_ext 1 (some streamImp) (fun _ => 1/2) (fun _ _ _ => 1) true
        ⟨[1], [(1, ⟨0, 0⟩)], [], []⟩).rows.get? 1 =
      some (extDbRow (genExtHour 1 1 1 ⟨streamImp, 0⟩).1) ∧
    (genExtHour 1 1 1 ⟨streamImp, 0⟩).1.impressions = 5500 ∧
    (genExtHour 1 1 1 ⟨streamImp, 22⟩).1.impressions = 1000 ∧
    ((5500 : ℤ) ≠ 1000) := by
  refine ⟨rfl, ?_, ?_, by norm_num⟩
  · simp only [genExtHour, Rng.uniform, Rng.randint, Rng.next, streamImp]
    norm_num [pos_int, pyInt]
  · simp only [genExtHour, Rng.uniform, Rng.randint, Rng.next, streamImp]
    norm_num [pos_int, pyInt]

lemma raw_run_store_meta (c : ℕ) (σ : ℕ → ℚ) (φ : ℕ → ℕ → ℕ → ℚ) (rep : Bool) (st : Store) :
    (generate_hourly_performance_raw c σ φ rep st).store.campaigns = st.campaigns ∧
    (generate_hourly_performance_raw c σ φ rep st).store.flights = st.flights ∧
    (generate_hourly_performance_raw c σ φ rep st).store.perf_ext = st.perf_ext := by
  unfold generate_hourly_performance_raw
  cases hc : get_campaign_and_flight st c with
  | none => simp
  | some fl => cases rep <;> simp

lemma ext_run_store_meta (c : ℕ) (ss : Option (ℕ → ℚ)) (entropy : ℕ → ℚ)
    (φ : ℕ → ℕ → ℕ → ℚ) (rep : Bool) (st : Store) :
    (generate_hourly_performance_ext c ss entropy φ rep st).store.campaigns = st.campaigns ∧
    (generate_hourly_performance_ext c ss entropy φ rep st).store.flights = st.flights ∧
    (generate_hourly_performance_ext c ss entropy φ rep st).store.perf = st.perf := by
  unfold generate_hourly_performance_ext
  cases hc : get_campaign_and_flight st c with
  | none => simp
  | some fl => cases rep <;> simp

lemma lookup_congr (st st' : Store) (c : ℕ) (h1 : st.campaigns = st'.campaigns)
    (h2 : st.flights = st'.flights) :
    get_campaign_and_flight st c = get_campaign_and_flight st' c := by
  unfold get_campaign_and_flight
  rw [h1, h2]

lemma raw_run_output_congr (c : ℕ) (σ : ℕ → ℚ) (φ : ℕ → ℕ → ℕ → ℚ) (rep : Bool)
    (st st' : Store)
    (h : get_campaign_and_flight st' c = get_campaign_and_flight st c) :
    (generate_hourly_performance_raw c σ φ rep st').rows =
      (generate_hourly_performance_raw c σ φ rep st).rows ∧
    (generate_hourly_performance_raw c σ φ rep st').count =
      (generate_hourly_performance_raw c σ φ rep st).count := by
  unfold generate_hourly_performance_raw
  rw [h]
  cases hc : get_campaign_and_flight st c <;> simp

lemma ext_run_output_congr (c : ℕ) (ss : Option (ℕ → ℚ)) (entropy : ℕ → ℚ)
    (φ : ℕ → ℕ → ℕ → ℚ) (rep : Bool) (st st' : Store)
    (h : get_campaign_and_flight st' c = get_campaign_and_flight st c) :
    (generate_hourly_performance_ext c ss entropy φ rep st').rows =
      (generate_hourly_performance_ext c ss entropy φ rep st).rows ∧
    (generate_hourly_performance_ext c ss entropy φ rep st').count =
      (generate_hourly_performance_ext c ss entropy φ rep st).count := by
  unfold generate_hourly_performance_ext
  rw [h]
  cases hc : get_campaign_and_flight st c <;> simp

/-- Claim C2: with `replace = true` and fixed campaign, seed stream and
flight window, a second run (on the storage state the first run left) returns
the same row count and, row by row, the same batch of rows — every field
identical — for both the basic and the extended generator. -/
theorem runs_deterministic_under_replace (c : ℕ) (σ entropy : ℕ → ℚ)
    (φ : ℕ → ℕ → ℕ → ℚ) (st : Store) :
    ((generate_hourly_performance_raw c σ φ true
        (generate_hourly_performance_raw c σ φ true st).store).rows =
      (generate_hourly_performance_raw c σ φ true st).rows ∧
     (generate_hourly_performance_raw c σ φ true
        (generate_hourly_performance_raw c σ φ true st).store).count =
      (generate_hourly_performance_raw c σ φ true st).count) ∧
    ((generate_hourly_performance_ext c (some σ) entropy φ true
        (generate_hourly_performance_ext c (some σ) entropy φ true st).store).rows =
      (generate_hourly_performance_ext c (some σ) entropy φ true st).rows ∧
     (generate_hourly_performance_ext c (some σ) entropy φ true
        (generate_hourly_performance_ext c (some σ) entropy φ true st).store).count =
      (generate_hourly_performance_ext c (some σ) entropy φ true st).count) :=
  ⟨raw_run_output_congr c σ φ true st _
     (lookup_congr _ _ c (raw_run_store_meta c σ φ true st).1
       (raw_run_store_meta c σ φ true st).2.1),
   ext_run_output_congr c (some σ) entropy φ true st _
     (lookup_congr _ _ c (ext_run_store_meta c (some σ) entropy φ true st).1
       (ext_run_store_meta c (some σ) entropy φ true st).2.1)⟩

lemma genRawRows_campaign (c : ℕ) (φ : ℕ → ℚ) (σ : ℕ → ℚ) :
    ∀ (hours : List ℕ) (i : ℕ) row, row ∈ (genRawRows c φ hours ⟨σ, i⟩).1 →
      row.campaign_id = c := by
  intro hours
  induction hours with
  | nil => intro i row h; simp [genRawRows] at h
  | cons t rest ih =>
    intro i row h
    have hpair : genRawHour c t (φ t) ⟨σ, i⟩ =
        ((genRawHour c t (φ t) ⟨σ, i⟩).1, (⟨σ, i + 27⟩ : Rng)) := by
      rw [← genRawHour_state c t (φ t) σ i]
    rw [genRawRows, hpair] at h
    simp only [List.mem_cons] at h
    rcases h with h | h
    · subst h; rfl
    · exact ih (i + 27) row h

lemma genRawRows_hours (c : ℕ) (φ : ℕ → ℚ) (σ : ℕ → ℚ) :
    ∀ (hours : List ℕ) (i : ℕ),
      (genRawRows c φ hours ⟨σ, i⟩).1.map RawRow.hour_ts = hours := by
  intro hours
  induction hours with
  | nil => intro i; simp [genRawRows]
  | cons t rest ih =>
    intro i
    have hpair : genRawHour c t (φ t) ⟨σ, i⟩ =
        ((genRawHour c t (φ t) ⟨σ, i⟩).1, (⟨σ, i + 27⟩ : Rng)) := by
      rw [← genRawHour_state c t (φ t) σ i]
    rw [genRawRows, hpair]
    simp only [List.map_cons]
    rw [ih (i + 27)]
    rfl

lemma hours_between_nodup (s e : ℕ) : (hours_between s e).Nodup := by
  unfold hours_between
  exact List.Nodup.map (fun a b h => by omega) (List.nodup_range _)

lemma hours_between_length (s e : ℕ) : (hours_between s e).length = e + 1 - s := by
  unfold hours_between; simp

lemma raw_run_rows (c : ℕ) (σ : ℕ → ℚ) (φ : ℕ → ℕ → ℕ → ℚ) (st : Store) (fl : Flight)
    (hfl : get_campaign_and_flight st c = some fl) :
    (generate_hourly_performance_raw c σ φ true st).rows =
      (genRawRows c (fun t => φ (24 * fl.start_date) t (24 * fl.end_date + 23))
        (hours_between (24 * fl.start_date) (24 * fl.end_date + 23)) ⟨σ, 0⟩).1 := by
  unfold generate_hourly_performance_raw
  rw [hfl]

lemma raw_run_count (c : ℕ) (σ : ℕ → ℚ) (φ : ℕ → ℕ → ℕ → ℚ) (st : Store) (fl : Flight)
    (hfl : get_campaign_and_flight st c = some fl) :
    (generate_hourly_performance_raw c σ φ true st).count =
      (genRawRows c (fun t => φ (24 * fl.start_date) t (24 * fl.end_date + 23))
        (hours_between (24 * fl.start_date) (24 * fl.end_date + 23)) ⟨σ, 0⟩).1.length := by
  unfold generate_hourly_performance_raw
  rw [hfl]

lemma raw_run_store (c : ℕ) (σ : ℕ → ℚ) (φ : ℕ → ℕ → ℕ → ℚ) (st : Store) (fl : Flight)
    (hfl : get_campaign_and_flight st c = some fl) :
    (generate_hourly_performance_raw c σ φ true st).store =
      { st with perf := clear_existing_performance (fun row => row.campaign_id) st.perf c ++
          (genRawRows c (fun t => φ (24 * fl.start_date) t (24 * fl.end_date + 23))
            (hours_between (24 * fl.start_date) (24 * fl.end_date + 23)) ⟨σ, 0⟩).1 } := by
  unfold generate_hourly_performance_raw
  rw [hfl]
  rfl

lemma replace_store_algebra (st : Store) (c : ℕ) (rows : List RawRow)
    (hc : ∀ row ∈ rows, row.campaign_id = c) :
    clear_existing_performance (fun row : RawRow => row.campaign_id)
        (clear_existing_performance (fun row : RawRow => row.campaign_id) st.perf c ++ rows) c =
      clear_existing_performance (fun row : RawRow => row.campaign_id) st.perf c ∧
    (clear_existing_performance (fun row : RawRow => row.campaign_id) st.perf c ++ rows).filter
        (fun row : RawRow => row.campaign_id == c) = rows := by
  have hclear_rows : (rows.filter fun row : RawRow => row.campaign_id != c) = [] :=
    List.filter_eq_nil_iff.mpr (fun a ha => by simp [hc a ha])
  have hfilter_rows : (rows.filter fun row : RawRow => row.campaign_id == c) = rows :=
    List.filter_eq_self.mpr (fun row h => by simp [hc row h])
  constructor
  · simp only [clear_existing_performance, List.filter_append, List.filter_filter]
    rw [show (rows.filter fun row : RawRow =>
        ((fun row : RawRow => row.campaign_id) row != c)) = [] from hclear_rows]
    simp [Bool.and_self]
  · simp only [clear_existing_performance, List.filter_append, List.filter_filter]
    rw [show (rows.filter fun row : RawRow => row.campaign_id == c) = rows from hfilter_rows]
    simp [bne]

/-- Claim C9: for a campaign with a flight window, regenerating twice with
`replace = true` leaves the same storage state as one run; the rows stored
for the campaign have pairwise distinct `hour_ts` keys (one row per
`(campaign_id, hour_ts)`), their number is the run's returned count, and
that count is the number of UTC hour boundaries in the inclusive window:
`24 · (end_date − start_date) + 24`. -/
theorem replace_idempotent_one_row_per_hour (c : ℕ) (σ : ℕ → ℚ)
    (φ : ℕ → ℕ → ℕ → ℚ) (st : Store) (fl : Flight)
    (hfl : get_campaign_and_flight st c = some fl)
    (hd : fl.start_date ≤ fl.end_date) :
    (generate_hourly_performance_raw c σ φ true
       (generate_hourly_performance_raw c σ φ true st).store).store =
      (generate_hourly_performance_raw c σ φ true st).store ∧
    (((generate_hourly_performance_raw c σ φ true st).store.perf.filter
        (fun row => row.campaign_id == c)).map RawRow.hour_ts).Nodup ∧
    ((generate_hourly_performance_raw c σ φ true st).store.perf.filter
        (fun row => row.campaign_id == c)).length =
      (generate_hourly_performance_raw c σ φ true st).count ∧
    (generate_hourly_performance_raw c σ φ true st).count =
      24 * (fl.end_date - fl.start_date) + 24 := by
  have hcamp : ∀ row ∈ (genRawRows c (fun t => φ (24 * fl.start_date) t (24 * fl.end_date + 23))
      (hours_between (24 * fl.start_date) (24 * fl.end_date + 23)) ⟨σ, 0⟩).1,
      row.campaign_id = c := fun row h => genRawRows_campaign c _ σ _ 0 row h
  have halg := replace_store_algebra st c _ hcamp
  have hfl' : get_campaign_and_flight
      (generate_hourly_performance_raw c σ φ true st).store c = some fl := by
    rw [lookup_congr _ st c (raw_run_store_meta c σ φ true st).1
      (raw_run_store_meta c σ φ true st).2.1]
    exact hfl
  have hmap : (genRawRows c (fun t => φ (24 * fl.start_date) t (24 * fl.end_date + 23))
      (hours_between (24 * fl.start_date) (24 * fl.end_date + 23)) ⟨σ, 0⟩).1.map
        RawRow.hour_ts = hours_between (24 * fl.start_date) (24 * fl.end_date + 23) :=
    genRawRows_hours c _ σ _ 0
  have hlen : (genRawRows c (fun t => φ (24 * fl.start_date) t (24 * fl.end_date + 23))
      (hours_between (24 * fl.start_date) (24 * fl.end_date + 23)) ⟨σ, 0⟩).1.length =
      (hours_between (24 * fl.start_date) (24 * fl.end_date + 23)).length := by
    have h := congrArg List.length hmap
    rwa [List.length_map] at h
  refine ⟨?_, ?_, ?_, ?_⟩
  · rw [raw_run_store c σ φ _ fl hfl', raw_run_store c σ φ st fl hfl]
    simp only [Store.mk.injEq, and_true, true_and]
    rw [halg.1]
  · rw [raw_run_store c σ φ st fl hfl]
    simp only []
    rw [halg.2, hmap]
    exact hours_between_nodup _ _
  · rw [raw_run_store c σ φ st fl hfl, raw_run_count c σ φ st fl hfl]
    simp only []
    rw [halg.2]
  · rw [raw_run_count c σ φ st fl hfl, hlen, hours_between_length]
    omega

/-- Witness for C9: campaign 1 with the one-day flight `(0, 0)` in an
otherwise empty store, all-halves stream, constant factor 1. -/
theorem replace_idempotent_one_row_per_hour_witness :
    get_campaign_and_flight ⟨[1], [(1, ⟨0, 0⟩)], [], []⟩ 1 = some ⟨0, 0⟩ ∧
    (0 : ℕ) ≤ 0 ∧
    ((generate_hourly_performance_raw 1 constHalf (fun _ _ _ => 1) true
       (generate_hourly_performance_raw 1 constHalf (fun _ _ _ => 1) true
         ⟨[1], [(1, ⟨0, 0⟩)], [], []⟩).store).store =
      (generate_hourly_performance_raw 1 constHalf (fun _ _ _ => 1) true
        ⟨[1], [(1, ⟨0, 0⟩)], [], []⟩).store ∧
     (((generate_hourly_performance_raw 1 constHalf (fun _ _ _ => 1) true
        ⟨[1], [(1, ⟨0, 0⟩)], [], []⟩).store.perf.filter
         (fun row => row.campaign_id == 1)).map RawRow.hour_ts).Nodup ∧
     ((generate_hourly_performance_raw 1 constHalf (fun _ _ _ => 1) true
        ⟨[1], [(1, ⟨0, 0⟩)], [], []⟩).store.perf.filter
         (fun row => row.campaign_id == 1)).length =
      (generate_hourly_performance_raw 1 constHalf (fun _ _ _ => 1) true
        ⟨[1], [(1, ⟨0, 0⟩)], [], []⟩).count ∧
     (generate_hourly_performance_raw 1 constHalf (fun _ _ _ => 1) true
        ⟨[1], [(1, ⟨0, 0⟩)], [], []⟩).count =
      24 * (0 - 0) + 24) :=
  ⟨rfl, le_refl 0,
   replace_idempotent_one_row_per_hour 1 constHalf (fun _ _ _ => 1)
     ⟨[1], [(1, ⟨0, 0⟩)], [], []⟩ ⟨0, 0⟩ rfl (le_refl 0)⟩

end AdsData
